import Mathlib

/-!
Shallow embedding of `clogger` (src/src/lib.rs), a runtime-configurable
console logger for the Rust `log` facade, together with proofs of the
specification claims about it.

The global mutable state of the program consists of the static `INSTANCE`
(a `Logger` with an atomic `quiet` flag and an atomic `verbosity` counter)
plus the two globals owned by the `log` facade that the crate mutates:
the published max-level filter (`set_max_level`) and whether a logger has
been registered (`set_logger`).  We model this as an explicit state record
threaded through the operations.  Standard error is modelled as a list of
written strings, and `eprintln!` as appending one line ending in a newline.
-/

namespace Clogger

/-- Severity levels of the `log` facade (`log::Level`). -/
inductive Level where
  | Error
  | Warn
  | Info
  | Debug
  | Trace
deriving DecidableEq, Repr

/-- Max-level filters of the `log` facade (`log::LevelFilter`). -/
inductive LevelFilter where
  | Off
  | Error
  | Warn
  | Info
  | Debug
  | Trace
deriving DecidableEq, Repr

/-- The numeric rank the `log` crate assigns to a `LevelFilter`
(its `usize` representation): a larger rank shows at least as many levels. -/
def LevelFilter.rank : LevelFilter → Nat
  | .Off => 0
  | .Error => 1
  | .Warn => 2
  | .Info => 3
  | .Debug => 4
  | .Trace => 5

/-- The `ansi_term::Color` variants used by the crate. -/
inductive Color where
  | Red
  | Purple
  | Yellow
  | Cyan
  | Blue
deriving DecidableEq, Repr

/-- The SGR parameter `ansi_term` uses for each foreground color. -/
def Color.sgr : Color → String
  | .Red => "31"
  | .Purple => "35"
  | .Yellow => "33"
  | .Cyan => "36"
  | .Blue => "34"

/-- `ansi_term`: `color.paint(text)` rendered with `Display`: the SGR escape
sequence, the text, then the reset sequence. -/
def Color.paint (c : Color) (text : String) : String :=
  "\x1b[" ++ c.sgr ++ "m" ++ text ++ "\x1b[0m"

/-- Record metadata of the `log` facade: only the level is consumed here. -/
structure Metadata where
  level : Level
deriving DecidableEq, Repr

/-- A log record of the `log` facade: metadata plus the rendered message
(`record.args()` shown via `Display`). -/
structure Record where
  metadata : Metadata
  args : String
deriving DecidableEq, Repr

/-- The `Logger` struct: the fields of the static `INSTANCE`
(`quiet: AtomicBool`, `verbosity: AtomicUsize`). -/
structure Logger where
  quiet : Bool
  verbosity : Nat
deriving DecidableEq, Repr

/-- `impl Log for Logger`, `fn enabled`: returns `true` for any metadata. -/
def Logger.enabled (_self : Logger) (_m : Metadata) : Bool :=
  true

/-- `impl Log for Logger`, `fn log`: match the record level to a
(name, color) pair and `eprintln!("{}: {}", color.paint(name), record.args())`.
Standard error is passed and returned explicitly as a list of writes. -/
def Logger.log (_self : Logger) (stderr : List String) (record : Record) : List String :=
  let nc : String × Color :=
    match record.metadata.level with
    | .Error => ("error", Color.Red)
    | .Warn => ("warn", Color.Purple)
    | .Info => ("info", Color.Yellow)
    | .Debug => ("debug", Color.Cyan)
    | .Trace => ("trace", Color.Blue)
  stderr ++ [nc.2.paint nc.1 ++ ": " ++ record.args ++ "\n"]

/-- `impl Log for Logger`, `fn flush`: a no-op. -/
def Logger.flush (_self : Logger) (stderr : List String) : List String :=
  stderr

/-- `log::SetLoggerError`: returned when a logger is already registered. -/
inductive SetLoggerError where
  | mk
deriving DecidableEq, Repr

/-- The program-visible global state: the static `INSTANCE` plus the two
`log`-facade globals the crate writes (the published max-level filter and
the logger-registered flag). -/
structure GlobalState where
  INSTANCE : Logger
  maxLevel : LevelFilter
  loggerSet : Bool
deriving DecidableEq, Repr

/-- `pub fn quiet()`: load `INSTANCE.quiet`. -/
def quiet (s : GlobalState) : Bool :=
  s.INSTANCE.quiet

/-- `pub fn verbosity()`: load `INSTANCE.verbosity`. -/
def verbosity (s : GlobalState) : Nat :=
  s.INSTANCE.verbosity

/-- `fn update_max_level()`: recompute the filter from `quiet()` and
`verbosity()` and publish it via `log::set_max_level`. -/
def update_max_level (s : GlobalState) : GlobalState :=
  { s with maxLevel :=
      if quiet s then
        LevelFilter.Off
      else
        match verbosity s with
        | 0 => LevelFilter.Warn
        | 1 => LevelFilter.Info
        | 2 => LevelFilter.Debug
        | _ => LevelFilter.Trace }

/-- `pub fn set_quiet(enabled)`: store the flag, then `update_max_level()`. -/
def set_quiet (enabled : Bool) (s : GlobalState) : GlobalState :=
  update_max_level { s with INSTANCE := { s.INSTANCE with quiet := enabled } }

/-- `pub fn set_verbosity(verbosity)`: store the counter, then
`update_max_level()`. -/
def set_verbosity (v : Nat) (s : GlobalState) : GlobalState :=
  update_max_level { s with INSTANCE := { s.INSTANCE with verbosity := v } }

/-- `log::set_logger(&INSTANCE)`: registers the logger exactly once;
fails with `SetLoggerError` if one is already registered, leaving the
facade state untouched. -/
def set_logger (s : GlobalState) : Except SetLoggerError Unit × GlobalState :=
  if s.loggerSet then
    (Except.error SetLoggerError.mk, s)
  else
    (Except.ok (), { s with loggerSet := true })

/-- `pub fn try_init()`: `update_max_level(); set_logger(&INSTANCE)`. -/
def try_init (s : GlobalState) : Except SetLoggerError Unit × GlobalState :=
  set_logger (update_max_level s)

/-- `pub fn init()`: `try_init().expect(..)`.  `expect` aborts the process
on the error case, so a completed `init` is exactly a successful
`try_init`; the aborted case is modelled as `none`. -/
def init (s : GlobalState) : Option GlobalState :=
  match try_init s with
  | (Except.ok _, s1) => some s1
  | (Except.error _, _) => none

/-- The static initial state: `quiet = false`, `verbosity = 0`, and the
`log` facade defaults (filter `Off`, no logger registered). -/
def initialState : GlobalState :=
  { INSTANCE := { quiet := false, verbosity := 0 }
    maxLevel := LevelFilter.Off
    loggerSet := false }

/-- Spec-side pure threshold function: the verbosity-to-threshold table of
the specification, with quiet overriding to `Off`. -/
def threshold (q : Bool) (v : Nat) : LevelFilter :=
  if q then LevelFilter.Off
  else if v = 0 then LevelFilter.Warn
  else if v = 1 then LevelFilter.Info
  else if v = 2 then LevelFilter.Debug
  else LevelFilter.Trace

/-- The published filter agrees with the pure threshold of the stored
fields. -/
def published_matches (s : GlobalState) : Prop :=
  s.maxLevel = threshold (quiet s) (verbosity s)

/-- Removing ANSI escape sequences from a string: characters between an
ESC and the following `m` (inclusive) are dropped. -/
def stripAnsi (s : String) : String :=
  let step : Bool × List Char → Char → Bool × List Char :=
    fun p c =>
      if p.1 then
        (c ≠ 'm', p.2)
      else if c = '\x1b' then
        (true, p.2)
      else
        (false, p.2 ++ [c])
  String.mk (s.data.foldl step (false, [])).2

/-- Spec-side table: the display name of each severity level. -/
def levelName : Level → String
  | .Error => "error"
  | .Warn => "warn"
  | .Info => "info"
  | .Debug => "debug"
  | .Trace => "trace"

/-- Spec-side table: the display color of each severity level. -/
def levelColor : Level → Color
  | .Error => .Red
  | .Warn => .Purple
  | .Info => .Yellow
  | .Debug => .Cyan
  | .Trace => .Blue

/-- The state reached by a successful first `try_init` from the static
initial state. -/
def postInitState : GlobalState :=
  (try_init initialState).2

/-- A concrete quiet state used as a witness input. -/
def quietState : GlobalState :=
  { INSTANCE := { quiet := true, verbosity := 7 }
    maxLevel := LevelFilter.Trace
    loggerSet := true }

/-- A concrete registered state whose published filter is stale relative to
its fields, used as a witness input. -/
def staleRegisteredState : GlobalState :=
  { INSTANCE := { quiet := false, verbosity := 2 }
    maxLevel := LevelFilter.Off
    loggerSet := true }

/-- `update_max_level` publishes exactly the pure threshold of the stored
fields. -/
theorem maxLevel_update (s : GlobalState) :
    (update_max_level s).maxLevel = threshold (quiet s) (verbosity s) := by
  simp only [update_max_level, threshold]
  cases hq : quiet s
  · rcases hv : verbosity s with _ | _ | _ | v <;> simp
  · simp

/-- `update_max_level` writes only the published filter, never the stored
fields or the registration flag. -/
theorem update_max_level_frame (s : GlobalState) :
    quiet (update_max_level s) = quiet s ∧
    verbosity (update_max_level s) = verbosity s ∧
    (update_max_level s).loggerSet = s.loggerSet :=
  ⟨rfl, rfl, rfl⟩

/-- Any state just produced by `update_max_level` satisfies the publication
invariant. -/
theorem published_matches_update (s : GlobalState) :
    published_matches (update_max_level s) :=
  maxLevel_update s

/-- When the stored publication already matches the fields,
`update_max_level` is the identity. -/
theorem update_max_level_of_matches (s : GlobalState) (h : published_matches s) :
    update_max_level s = s := by
  have hm := maxLevel_update s
  unfold published_matches at h
  cases s with
  | mk inst ml ls =>
    simp only [update_max_level]
    rw [show (if quiet ⟨inst, ml, ls⟩ then LevelFilter.Off
        else match verbosity ⟨inst, ml, ls⟩ with
          | 0 => LevelFilter.Warn
          | 1 => LevelFilter.Info
          | 2 => LevelFilter.Debug
          | _ => LevelFilter.Trace) = ml from hm.trans h.symm]

end Clogger

namespace Clogger

/-- C1: for every verbosity value v set via `set_verbosity` while quiet is
false, the published max-level filter is Warn for v = 0, Info for v = 1,
Debug for v = 2 and Trace for every v ≥ 3, however large. -/
theorem set_verbosity_publishes_table (s : GlobalState) (v : Nat)
    (h : quiet s = false) :
    (set_verbosity v s).maxLevel =
      (if v = 0 then LevelFilter.Warn
       else if v = 1 then LevelFilter.Info
       else if v = 2 then LevelFilter.Debug
       else LevelFilter.Trace) := by
  have hq : quiet { s with INSTANCE := { s.INSTANCE with verbosity := v } } = false := h
  simp only [set_verbosity, update_max_level, hq, if_false, Bool.false_eq_true]
  rcases v with _ | _ | _ | v <;> simp [verbosity]

/-- Witness for C1 at the large value v = 1000 from the initial state. -/
theorem set_verbosity_publishes_table_witness :
    quiet initialState = false ∧
    (set_verbosity 1000 initialState).maxLevel = LevelFilter.Trace := by
  refine ⟨rfl, ?_⟩
  have h := set_verbosity_publishes_table initialState 1000 rfl
  simpa using h

/-- C2: whenever the quiet flag is true, the filter published by
`update_max_level` — in particular after any `set_verbosity` — is Off,
for every verbosity value. -/
theorem quiet_publishes_off (s : GlobalState) (h : quiet s = true) :
    (update_max_level s).maxLevel = LevelFilter.Off ∧
    ∀ v : Nat, (set_verbosity v s).maxLevel = LevelFilter.Off := by
  constructor
  · simp [update_max_level, h]
  · intro v
    have hq : quiet { s with INSTANCE := { s.INSTANCE with verbosity := v } } = true := h
    simp [set_verbosity, update_max_level, hq]

/-- Witness for C2 at a concrete quiet state with verbosity 7. -/
theorem quiet_publishes_off_witness :
    quiet quietState = true ∧
    (set_verbosity 42 quietState).maxLevel = LevelFilter.Off :=
  ⟨rfl, (quiet_publishes_off quietState rfl).2 42⟩

/-- The state left behind by `try_init` satisfies the publication
invariant: `set_logger` touches neither the fields nor the filter. -/
theorem published_matches_try_init (s : GlobalState) :
    published_matches (try_init s).2 := by
  have h := published_matches_update s
  unfold try_init set_logger
  by_cases hl : (update_max_level s).loggerSet
  · rw [if_pos hl]
    exact h
  · rw [if_neg hl]
    unfold published_matches quiet verbosity at h ⊢
    simpa using h

/-- C3: every completed mutating operation (`try_init`, and `init` when it
completes, `set_quiet`, `set_verbosity`) leaves the published filter equal
to the pure threshold of the current (quiet, verbosity) pair. -/
theorem mutations_publish_threshold (s : GlobalState) (b : Bool) (n : Nat) :
    published_matches (set_quiet b s) ∧
    published_matches (set_verbosity n s) ∧
    published_matches (try_init s).2 ∧
    ∀ s1 : GlobalState, init s = some s1 → published_matches s1 := by
  refine ⟨published_matches_update _, published_matches_update _,
    published_matches_try_init s, ?_⟩
  intro s1 h1
  unfold init at h1
  rcases htry : try_init s with ⟨res, s2⟩
  rw [htry] at h1
  cases res with
  | error e => simp at h1
  | ok u =>
    simp only [Option.some.injEq] at h1
    have h := published_matches_try_init s
    rw [htry] at h
    rw [← h1]
    exact h

/-- Witness for C3 at the initial state, checking the implication branch
for a completed `init`. -/
theorem mutations_publish_threshold_witness :
    published_matches (set_quiet true initialState) ∧
    published_matches (set_verbosity 2 initialState) ∧
    published_matches (try_init initialState).2 ∧
    published_matches postInitState := by
  have h := mutations_publish_threshold initialState true 2
  exact ⟨h.1, h.2.1, h.2.2.1, h.2.2.2 postInitState rfl⟩

/-- C4: a second `try_init` after a successful first call returns the
already-initialized error and leaves the whole state — quiet, verbosity,
registered sink and facade filter — exactly as it was. -/
theorem try_init_second_unchanged (s : GlobalState) (h1 : s.loggerSet = true)
    (h2 : published_matches s) :
    try_init s = (Except.error SetLoggerError.mk, s) := by
  rw [try_init, update_max_level_of_matches s h2]
  simp [set_logger, h1]

/-- Witness for C4 at the state reached by a successful first `try_init`. -/
theorem try_init_second_unchanged_witness :
    postInitState.loggerSet = true ∧
    published_matches postInitState ∧
    try_init postInitState = (Except.error SetLoggerError.mk, postInitState) :=
  ⟨rfl, rfl, try_init_second_unchanged postInitState rfl rfl⟩

/-- C5: for every level and message, `log` appends to standard error
exactly one line: the level's name painted in its table color, the
separator, the message and a newline; concretely, an Error record with
message "disk full" writes a line whose color-stripped text is exactly
"error: disk full" plus the newline. -/
theorem log_writes_one_colored_line :
    (∀ (L : Logger) (stderr : List String) (r : Record),
       L.log stderr r =
         stderr ++ [(levelColor r.metadata.level).paint (levelName r.metadata.level)
           ++ ": " ++ r.args ++ "\n"]) ∧
    (levelName Level.Error = "error" ∧ levelColor Level.Error = Color.Red) ∧
    (levelName Level.Warn = "warn" ∧ levelColor Level.Warn = Color.Purple) ∧
    (levelName Level.Info = "info" ∧ levelColor Level.Info = Color.Yellow) ∧
    (levelName Level.Debug = "debug" ∧ levelColor Level.Debug = Color.Cyan) ∧
    (levelName Level.Trace = "trace" ∧ levelColor Level.Trace = Color.Blue) ∧
    (Logger.mk false 0).log [] ⟨⟨Level.Error⟩, "disk full"⟩
      = ["\x1b[31merror\x1b[0m: disk full\n"] ∧
    stripAnsi "\x1b[31merror\x1b[0m: disk full\n" = "error: disk full\n" := by
  refine ⟨?_, ⟨rfl, rfl⟩, ⟨rfl, rfl⟩, ⟨rfl, rfl⟩, ⟨rfl, rfl⟩, ⟨rfl, rfl⟩, ?_, ?_⟩
  · rintro L stderr ⟨⟨lvl⟩, msg⟩
    cases lvl <;> rfl
  · rfl
  · decide

/-- C6: the sink never filters — `enabled` is true for every metadata, and
the output of `log` does not depend on the stored quiet flag or verbosity
value. -/
theorem sink_never_filters :
    (∀ (L : Logger) (m : Metadata), L.enabled m = true) ∧
    (∀ (L1 L2 : Logger) (stderr : List String) (r : Record),
       L1.log stderr r = L2.log stderr r) :=
  ⟨fun _ _ => rfl, fun _ _ _ _ => rfl⟩

/-- C7: `set_verbosity n` followed by the getter `verbosity` returns
exactly n, for every n, with no clamping or truncation. -/
theorem set_verbosity_roundtrip (s : GlobalState) (n : Nat) :
    verbosity (set_verbosity n s) = n :=
  rfl

/-- The rank of the published filter at quiet = false is 2 + min v 3. -/
theorem rank_threshold_false (v : Nat) :
    (threshold false v).rank = 2 + min v 3 := by
  rcases v with _ | _ | _ | v <;>
    simp [threshold, LevelFilter.rank, Nat.min_def]

/-- `set_verbosity` publishes the pure threshold at quiet unchanged. -/
theorem set_verbosity_maxLevel (s : GlobalState) (v : Nat) :
    (set_verbosity v s).maxLevel = threshold (quiet s) v :=
  maxLevel_update _

/-- C8: with quiet false, the mapping from verbosity to the published
filter is monotone — raising verbosity never lowers the shown threshold. -/
theorem verbosity_threshold_monotone (s : GlobalState) (v1 v2 : Nat)
    (hq : quiet s = false) (hv : v1 ≤ v2) :
    ((set_verbosity v1 s).maxLevel).rank ≤ ((set_verbosity v2 s).maxLevel).rank := by
  rw [set_verbosity_maxLevel, set_verbosity_maxLevel, hq,
    rank_threshold_false, rank_threshold_false]
  omega

/-- Witness for C8 at verbosities 1 ≤ 2 from the initial state. -/
theorem verbosity_threshold_monotone_witness :
    quiet initialState = false ∧ 1 ≤ 2 ∧
    ((set_verbosity 1 initialState).maxLevel).rank
      ≤ ((set_verbosity 2 initialState).maxLevel).rank :=
  ⟨rfl, by decide,
    verbosity_threshold_monotone initialState 1 2 rfl (by decide)⟩

/-- C9: when a sink is already registered, `try_init` still returns the
error, yet has already overwritten the published filter with the pure
threshold of its own fields before the failed registration. -/
theorem try_init_publishes_before_register (s : GlobalState)
    (h : s.loggerSet = true) :
    (try_init s).1 = Except.error SetLoggerError.mk ∧
    (try_init s).2.maxLevel = threshold (quiet s) (verbosity s) := by
  have hl : (update_max_level s).loggerSet = true := h
  constructor
  · simp [try_init, set_logger, hl]
  · simp only [try_init, set_logger, hl, if_true]
    exact maxLevel_update s

/-- Witness for C9 at a registered state whose stale filter Off differs
from the threshold Debug that the failing call publishes. -/
theorem try_init_publishes_before_register_witness :
    staleRegisteredState.loggerSet = true ∧
    (try_init staleRegisteredState).1 = Except.error SetLoggerError.mk ∧
    (try_init staleRegisteredState).2.maxLevel = LevelFilter.Debug := by
  have h := try_init_publishes_before_register staleRegisteredState rfl
  exact ⟨rfl, h.1, h.2⟩

/-- C10: the setters are frame-disjoint — `set_quiet` leaves verbosity and
the registration flag unchanged, and `set_verbosity` leaves quiet and the
registration flag unchanged. -/
theorem setters_frame_disjoint (s : GlobalState) (b : Bool) (n : Nat) :
    verbosity (set_quiet b s) = verbosity s ∧
    (set_quiet b s).loggerSet = s.loggerSet ∧
    quiet (set_verbosity n s) = quiet s ∧
    (set_verbosity n s).loggerSet = s.loggerSet :=
  ⟨rfl, rfl, rfl, rfl⟩

end Clogger
